import Mathlib

/-!
Shallow embedding of the muzik TUI runtime core:
the Action message model (src/action.rs), the Focus/Scene/Mode model and
LayoutManager (src/layouts.rs), the App orchestrator dispatch loop
(src/app.rs), the input component (src/components/general.rs) and the
artist upsert of the persistence layer (src/database.rs).

Conventions of the embedding:
* `u16`/`i32` quantities are modelled as `Nat`/`Int`; the screens and ids
  involved are far from any overflow boundary.
* Rust `Vec` used as a stack (`focus_buffer`) is modelled as a `List`
  whose HEAD is the TOP of the stack (the last pushed element).
* `HashMap<Scenes, Rect>` is modelled as a function `Scenes → Option Rect`
  updated pointwise, which is exactly the map semantics of insert/get.
* Rust panics (`expect` on an empty focus buffer) surface as `none` in an
  `Option`-returning step function.
-/

namespace Muzik

/-- Mode (src/mode.rs, referenced throughout src): top-level areas plus the
distinguished `Global` value. Variants as used by the components in src:
Home, Global, Download, Manager. -/
inductive Mode where
  | home
  | global
  | download
  | manager
deriving DecidableEq, Repr

/-- HomeLayouts (src/layouts.rs). -/
inductive HomeLayouts where
  | intro
deriving DecidableEq, Repr

/-- DownloadLayouts (src/layouts.rs). -/
inductive DownloadLayouts where
  | searchBar
  | searchResult
  | searchResultDetails
deriving DecidableEq, Repr

/-- ManagerLayouts (src/layouts.rs). -/
inductive ManagerLayouts where
  | songList
deriving DecidableEq, Repr

/-- Scenes (src/layouts.rs): screens or individual elements. -/
inductive Scenes where
  | home (h : HomeLayouts)
  | download (d : DownloadLayouts)
  | manager (m : ManagerLayouts)
  | inputBar
  | titleBar
deriving DecidableEq, Repr

/-- Focus (src/layouts.rs): the (mode, scene) pair. -/
structure Focus where
  mode : Mode
  scene : Scenes
deriving DecidableEq, Repr

/-- ratatui Rect: x, y, width, height in terminal cells (u16 in the source). -/
structure Rect where
  x : Nat
  y : Nat
  width : Nat
  height : Nat
deriving DecidableEq, Repr

/-- ratatui vertical split with constraints `[Length top, Min 1]` as used in
`build_download_layout`: a fixed strip of `top` rows, the `Min` area filling
the remainder. -/
def splitLengthMin (area : Rect) (top : Nat) : Rect × Rect :=
  let h1 := min top area.height
  (⟨area.x, area.y, area.width, h1⟩,
   ⟨area.x, area.y + h1, area.width, area.height - h1⟩)

/-- ratatui vertical split with constraints `[Length top, Min 1, Length bot]`
as used in `build_layouts`: fixed strips at both ends, the `Min` area filling
the middle. -/
def splitLengthMinLength (area : Rect) (top bot : Nat) : Rect × Rect × Rect :=
  let h1 := min top area.height
  let h3 := min bot (area.height - h1)
  let h2 := area.height - h1 - h3
  (⟨area.x, area.y, area.width, h1⟩,
   ⟨area.x, area.y + h1, area.width, h2⟩,
   ⟨area.x, area.y + h1 + h2, area.width, h3⟩)

/-- ratatui horizontal split by `Constraint::from_percentages([50, 50])` as
used in `build_download_layout`. -/
def splitHalfHorizontal (area : Rect) : Rect × Rect :=
  let w1 := area.width / 2
  (⟨area.x, area.y, w1, area.height⟩,
   ⟨area.x + w1, area.y, area.width - w1, area.height⟩)

/-- The Scene → Rect map of the layout manager (`HashMap<Scenes, Rect>`). -/
abbrev LayoutStore := Scenes → Option Rect

/-- `HashMap::insert`: pointwise update of the store. -/
def storeInsert (s : LayoutStore) (k : Scenes) (v : Rect) : LayoutStore :=
  fun q => if q = k then some v else s q

/-- ScreenOrientation (src/layouts.rs); carried in the manager state, defaulted to
landscape and never reassigned in src. -/
inductive ScreenOrientation where
  | landscape
  | portrait
deriving DecidableEq, Repr

/-- LayoutManager (src/layouts.rs): layout store, current screen rect and
orientation. -/
structure LayoutManager where
  layout_store : LayoutStore
  screen : Rect
  orientation : ScreenOrientation

/-- `LayoutManager::new` via `Default`: empty store, zero screen, landscape. -/
def LayoutManager.new : LayoutManager :=
  { layout_store := fun _ => none, screen := ⟨0, 0, 0, 0⟩,
    orientation := .landscape }

/-- `LayoutManager::build_download_layout` (src/layouts.rs lines 86-99):
split the area into a 3-row search bar and a remainder split 50/50 into
result list and details. -/
def LayoutManager.build_download_layout (lm : LayoutManager) (area : Rect) :
    LayoutManager :=
  let (top, rest) := splitLengthMin area 3
  let (left, right) := splitHalfHorizontal rest
  let s1 := storeInsert lm.layout_store (.download .searchBar) top
  let s2 := storeInsert s1 (.download .searchResult) left
  let s3 := storeInsert s2 (.download .searchResultDetails) right
  { lm with layout_store := s3 }

/-- `LayoutManager::build_layouts` (src/layouts.rs lines 102-118): title
strip of 1 row, input strip of 3 rows, the middle assigned to the Home intro
scene and also subdivided for the download scenes. No entry is ever inserted
for a `Scenes.manager` key. -/
def LayoutManager.build_layouts (lm : LayoutManager) : LayoutManager :=
  let (t, mid, bot) := splitLengthMinLength lm.screen 1 3
  let s1 := storeInsert lm.layout_store .titleBar t
  let s2 := storeInsert s1 .inputBar bot
  let s3 := storeInsert s2 (.home .intro) mid
  let lm1 : LayoutManager := { lm with layout_store := s3 }
  lm1.build_download_layout mid

/-- `LayoutManager::update` (src/layouts.rs lines 80-84): store the new
screen and rebuild. -/
def LayoutManager.update (lm : LayoutManager) (screen : Rect) : LayoutManager :=
  LayoutManager.build_layouts { lm with screen := screen }

/-- `LayoutManager::init` (src/layouts.rs lines 70-73) as called from
`App::run`: update on a fresh manager. -/
def LayoutManager.init (screen : Rect) : LayoutManager :=
  LayoutManager.new.update screen

/-- `LayoutManager::get_component_layout` (src/layouts.rs lines 75-77):
lookup that fails with a descriptive error when absent (never a default
rect). -/
def LayoutManager.get_component_layout (lm : LayoutManager) (k : Scenes) :
    Except String Rect :=
  match lm.layout_store k with
  | some r => .ok r
  | none => .error "Layout key does not exists"

/-- YoutubeVideo (src/components/download.rs lines 296-304). -/
structure YoutubeVideo where
  id : String
  title : Option String
  channel : Option String
  album : Option String
  artist : Option String
  genre : Option String
deriving DecidableEq, Repr

/-- InputIn (src/action.rs lines 58-62): payload of `InputModeOn`. -/
structure InputIn where
  input_name : String
  initial_value : Option String
deriving DecidableEq, Repr

/-- InputOut (src/action.rs lines 64-68): payload of `InputModeOff`. -/
structure InputOut where
  input_name : Option String
  buffer : String
deriving DecidableEq, Repr

/-- Action (src/action.rs lines 12-56): the closed set of typed messages. -/
inductive Action where
  | tick
  | render
  | resize (w h : Nat)
  | suspend
  | resume
  | quit
  | refresh
  | error (message : String)
  | help
  | focusSwitch (f : Focus)
  | focusBack
  | inputModeOn (i : InputIn)
  | inputModeOff (o : InputOut)
  | downloadSearchYoutube
  | downloadShowSearchDetails (v : Option YoutubeVideo)
  | downloadSearchToDetails
deriving DecidableEq, Repr

/-- The dispatch loop in `App::run` consults a component only through its
`scene()` and `mode()` accessors (both constant per component), so a
component is represented here by that metadata. -/
structure ComponentMeta where
  name : String
  scene : Scenes
  mode : Mode
deriving DecidableEq, Repr

/-- Intro (src/components/home.rs lines 72-78). -/
def introMeta : ComponentMeta := ⟨"Intro", .home .intro, .home⟩

/-- TitleBar (src/components/general.rs lines 34-40). -/
def titleBarMeta : ComponentMeta := ⟨"TitleBar", .titleBar, .global⟩

/-- InputArea (src/components/general.rs lines 74-80). -/
def inputAreaMeta : ComponentMeta := ⟨"InputArea", .inputBar, .global⟩

/-- SearchBar (src/components/download.rs lines 48-54). -/
def searchBarMeta : ComponentMeta :=
  ⟨"SearchBar", .download .searchBar, .download⟩

/-- SearchResult (src/components/download.rs lines 159-165). -/
def searchResultMeta : ComponentMeta :=
  ⟨"SearchResult", .download .searchResult, .download⟩

/-- SearchResultDetails (src/components/download.rs lines 287-293). -/
def searchResultDetailsMeta : ComponentMeta :=
  ⟨"SearchResultDetails", .download .searchResultDetails, .download⟩

/-- SongList (src/components/manager.rs lines 36-42). -/
def songListMeta : ComponentMeta :=
  ⟨"SongList", .manager .songList, .manager⟩

/-- The component registry built in `App::new` (src/app.rs lines 54-63), in
registration order. The FpsCounter entry of that list lives in a source file
outside the modelled set and none of the properties below depend on it, so
it is omitted here. -/
def appComponents : List ComponentMeta :=
  [introMeta, titleBarMeta, inputAreaMeta, searchBarMeta, searchResultMeta,
   searchResultDetailsMeta, songListMeta]

namespace App

/-- A terminal key event; the dispatcher compares key events only for
equality (HashMap lookup on `Vec<KeyEvent>`), so an abstract identifier
suffices. -/
abbrev KeyEvent := Nat

/-- A key-binding table for one mode: ordered key sequences mapped to
Actions (`HashMap<Vec<KeyEvent>, Action>`), looked up by exact sequence. -/
abbrev Keymap := List (List KeyEvent × Action)

/-- `keymap.get(&keys)`: exact-sequence lookup. -/
def keymapGet (m : Keymap) (ks : List KeyEvent) : Option Action :=
  (m.find? (fun p => p.1 = ks)).map (fun p => p.2)

/-- `config.keybindings`: a per-mode table, absent for unbound modes. -/
abbrev Keybindings := Mode → Option Keymap

/-- Mutable orchestrator state touched by the action handler of `App::run`:
the focus stack (head = top), the rolling multi-key buffer and the two
flags. -/
structure AppState where
  focus_buffer : List Focus
  last_tick_key_events : List KeyEvent
  should_quit : Bool
  should_suspend : Bool
deriving DecidableEq, Repr

/-- The state set up by `App::new` (src/app.rs lines 47-78): the stack is
seeded with the single Home/Intro focus. -/
def initialState : AppState :=
  { focus_buffer := [⟨Mode.home, Scenes.home .intro⟩],
    last_tick_key_events := [], should_quit := false,
    should_suspend := false }

/-- `App::get_focused` (src/app.rs lines 247-249): top of the focus stack;
the Rust code panics (`expect`) when the stack is empty, modelled as
`none`. -/
def getFocused (s : AppState) : Option Focus :=
  s.focus_buffer.head?

/-- The per-action state update of the action handler in `App::run`
(src/app.rs lines 169-224). Only the cases that touch `AppState` are
distinguished; `Resize`/`Render`/`Error` and the domain actions leave this
state unchanged. `none` models the `expect` panic of `get_focused` on an
empty stack. Note that `InputModeOff` and `FocusBack` pop unconditionally
(`Vec::pop` on an empty vector is a silent no-op). -/
def handleAction (s : AppState) : Action → Option AppState
  | .tick => some { s with last_tick_key_events := [] }
  | .quit => some { s with should_quit := true }
  | .suspend => some { s with should_suspend := true }
  | .resume => some { s with should_suspend := false }
  | .inputModeOn _ =>
      (getFocused s).map (fun f =>
        { s with focus_buffer := ⟨f.mode, Scenes.inputBar⟩ :: s.focus_buffer })
  | .inputModeOff _ => some { s with focus_buffer := s.focus_buffer.tail }
  | .focusSwitch f => some { s with focus_buffer := f :: s.focus_buffer }
  | .focusBack => some { s with focus_buffer := s.focus_buffer.tail }
  | _ => some s

/-- The key-event translation step of `App::run` (src/app.rs lines 110-137)
for a focus whose scene is not `InputBar`: consult the `Mode::Global` table
on the single key, then the focused mode's table on the single key, falling
back to the rolling multi-key buffer. Returns the emitted actions in send
order together with the new rolling buffer. -/
def handleKeyEvent (kb : Keybindings) (focusedMode : Mode)
    (lastKeys : List KeyEvent) (key : KeyEvent) :
    List Action × List KeyEvent :=
  let globalActs :=
    match kb Mode.global with
    | some m =>
        match keymapGet m [key] with
        | some a => [a]
        | none => []
    | none => []
  match kb focusedMode with
  | some m =>
      match keymapGet m [key] with
      | some a => (globalActs ++ [a], lastKeys)
      | none =>
          let keys := lastKeys ++ [key]
          match keymapGet m keys with
          | some a => (globalActs ++ [a], keys)
          | none => (globalActs, keys)
  | none => (globalActs, lastKeys)

/-- The full `tui::Event::Key` arm (src/app.rs lines 110-137): key bindings
are only consulted when the focused scene is not `InputBar`. -/
def handleKeyBranch (kb : Keybindings) (focus : Focus)
    (lastKeys : List KeyEvent) (key : KeyEvent) :
    List Action × List KeyEvent :=
  if focus.scene = Scenes.inputBar then ([], lastKeys)
  else handleKeyEvent kb focus.mode lastKeys key

/-- The event-forwarding filter of `App::run` (src/app.rs lines 141-160): in
input mode (`current_focus.scene == InputBar`) only components whose own
scene is `InputBar` get `handle_events`; otherwise every component does. -/
def receivesEvent (currentFocus : Focus) (c : ComponentMeta) : Bool :=
  if currentFocus.scene = Scenes.inputBar then
    decide (c.scene = Scenes.inputBar)
  else true

/-- Outcome of the `Action::Render` arm for one component. -/
inductive DrawOutcome where
  | skipped
  | drawn (r : Rect)
  | errorAction (message : String)
deriving DecidableEq, Repr

/-- One component's treatment in the render pass (src/app.rs lines 189-208):
draw only when the component's mode matches the current mode or is Global,
and only when the layout manager resolves its scene; a resolution miss is
turned into an `Error` action. -/
def renderStep (lm : LayoutManager) (focus : Focus) (c : ComponentMeta) :
    DrawOutcome :=
  if c.mode = focus.mode ∨ c.mode = Mode.global then
    match lm.get_component_layout c.scene with
    | .ok r => .drawn r
    | .error e => .errorAction ("Failed to get layout: " ++ e)
  else .skipped

/-- The whole render pass: the `for` loop visits every component whatever
happened for the previous ones. -/
def renderPass (lm : LayoutManager) (focus : Focus)
    (comps : List ComponentMeta) : List DrawOutcome :=
  comps.map (renderStep lm focus)

/-- The draw pass of the `Action::Resize` arm (src/app.rs lines 176-188):
after the layout rebuild, EVERY component is drawn at the full frame size
`f.size()` — there is no mode filter and the layout manager is never
consulted. The current focus is passed into each `draw` call but does not
influence which components are drawn; a failing `draw` becomes an `Error`
action, outside the state modelled here. -/
def resizeDrawPass (frame : Rect) (_focus : Focus)
    (comps : List ComponentMeta) : List DrawOutcome :=
  comps.map (fun _ => DrawOutcome.drawn frame)

end App

/-- The private state of the InputArea component
(src/components/general.rs lines 43-49); the action sender is dispatch
plumbing with no bearing on the update function. -/
structure InputArea where
  input_name : Option String
  input_buffer : String
  position : Nat
deriving DecidableEq, Repr

/-- `InputArea::new` via `Default`. -/
def InputArea.new : InputArea :=
  { input_name := none, input_buffer := "", position := 0 }

/-- `InputArea::update` (src/components/general.rs lines 137-153):
`InputModeOn` installs the name and seeds the buffer from the initial value
(cursor at its end) or clears it; `InputModeOff` and every other action
leave the state untouched. The Rust function always returns `Ok(None)`, so
only the state effect is modelled. -/
def InputArea.update (s : InputArea) : Action → InputArea
  | .inputModeOn i =>
      match i.initial_value with
      | some v =>
          { input_name := some i.input_name, input_buffer := v,
            position := v.length }
      | none =>
          { input_name := some i.input_name, input_buffer := "",
            position := 0 }
  | _ => s

/-- One row of the artist table (src/models.rs): id and name. -/
structure ArtistRow where
  id : Int
  name : String
deriving DecidableEq, Repr

/-- The artist table of the sqlite database, in insertion order. -/
abbrev ArtistTable := List ArtistRow

/-- The id sqlite assigns to a freshly inserted artist row: the table's
maximum rowid plus one (so the first insert gets id 1, as the repository's
own tests record). -/
def freshArtistId (t : ArtistTable) : Int :=
  (t.foldr (fun r m => max r.id m) 0) + 1

/-- `Database::insert_artist` (src/database.rs lines 72-91): select the id
of the row whose name matches; on `NotFound`, insert a new row and return
its id. Returns the id together with the table after the call. -/
def insert_artist (t : ArtistTable) (newName : String) : Int × ArtistTable :=
  match t.find? (fun r => r.name = newName) with
  | some r => (r.id, t)
  | none =>
      let i := freshArtistId t
      (i, t ++ [⟨i, newName⟩])


/-- C1: the claim says the handlers for `Action::FocusBack` and
`Action::InputModeOff` never remove the bottom element of the focus stack
and that an emptying pop is rejected as a fatal logic error. The code pops
unconditionally: processing `FocusBack` in the initial single-element state
silently removes the bottom (startup) focus, leaving the stack empty, and
the next `get_focused` hits the `expect` panic (modelled as `none`). -/
theorem c1_focusBack_empties_initial_stack :
    (App.handleAction App.initialState Action.focusBack).map
        (fun s => s.focus_buffer) = some [] ∧
    (App.handleAction App.initialState Action.focusBack).bind
        App.getFocused = none := by
  constructor
  · rfl
  · rfl

/-- C2 counterexample: the claim says that while the focused scene is
`InputBar`, events are routed to `Global`-mode components plus
`InputBar`-scene components. TitleBar is a registered component with
`mode() == Global` and scene `TitleBar`, yet the dispatch loop skips it: the
routing test in `App::run` looks only at `scene()`. -/
theorem c2_global_titleBar_skipped_in_input_mode :
    titleBarMeta ∈ appComponents ∧
    titleBarMeta.mode = Mode.global ∧
    App.receivesEvent ⟨Mode.home, Scenes.inputBar⟩ titleBarMeta = false := by
  refine ⟨by decide, rfl, rfl⟩

/-- C2 (amended): while the focused scene is `InputBar`, a terminal event is
routed exactly to the components whose `scene()` is `InputBar`; a
component's `mode()`, `Global` included, plays no role in this filter. -/
theorem c2_input_mode_routes_only_inputBar_scene (c : ComponentMeta)
    (f : Focus) (h : f.scene = Scenes.inputBar) :
    App.receivesEvent f c = true ↔ c.scene = Scenes.inputBar := by
  simp [App.receivesEvent, h]

/-- Witness for C2: the InputArea component (scene `InputBar`) instantiates
the amended routing rule at the concrete focus (Home, InputBar). -/
theorem c2_input_mode_routing_witness :
    App.receivesEvent ⟨Mode.home, Scenes.inputBar⟩ inputAreaMeta = true ↔
      inputAreaMeta.scene = Scenes.inputBar :=
  c2_input_mode_routes_only_inputBar_scene inputAreaMeta
    ⟨Mode.home, Scenes.inputBar⟩ rfl

/-- A key-binding configuration in which `Mode::Global` and `Mode::Home`
both bind the single key 0: Global to `Quit`, Home to `Help`. -/
def c3Keybindings : App.Keybindings := fun m =>
  match m with
  | Mode.global => some [([0], Action.quit)]
  | Mode.home => some [([0], Action.help)]
  | _ => none

/-- C3 counterexample: the claim says that when a `Mode::Global` binding
matches the pressed key, no binding of the focused mode is additionally
resolved or emitted in the same tick. With key 0 bound in both tables and
Home focused (not in `InputBar`), one key press emits BOTH actions: the
global `Quit` and then the Home-mode `Help` — the key-event arm of
`App::run` has no else between the two lookups. -/
theorem c3_global_and_mode_bindings_both_fire :
    App.handleKeyBranch c3Keybindings ⟨Mode.home, Scenes.home .intro⟩ [] 0
      = ([Action.quit, Action.help], []) := by
  rfl

/-- C3 (amended): a matching `Mode::Global` binding emits its action, but
the focused mode's table is still consulted for the same key in the same
tick; when it also binds that exact key, its action is emitted as well,
after the global one. -/
theorem c3_mode_binding_not_suppressed_by_global (kb : App.Keybindings)
    (focus : Focus) (lastKeys : List App.KeyEvent) (key : App.KeyEvent)
    (gm mm : App.Keymap) (a b : Action)
    (hscene : focus.scene ≠ Scenes.inputBar)
    (hg : kb Mode.global = some gm) (hm : kb focus.mode = some mm)
    (ha : App.keymapGet gm [key] = some a)
    (hb : App.keymapGet mm [key] = some b) :
    (App.handleKeyBranch kb focus lastKeys key).1 = [a, b] := by
  simp [App.handleKeyBranch, hscene, App.handleKeyEvent, hg, hm, ha, hb]

/-- Witness for C3: the amended rule applied to the concrete double-bound
configuration. -/
theorem c3_mode_binding_witness :
    (App.handleKeyBranch c3Keybindings ⟨Mode.home, Scenes.home .intro⟩
        [] 0).1 = [Action.quit, Action.help] :=
  c3_mode_binding_not_suppressed_by_global c3Keybindings
    ⟨Mode.home, Scenes.home .intro⟩ [] 0 [([0], Action.quit)]
    [([0], Action.help)] Action.quit Action.help (by decide) rfl rfl rfl rfl

/-- C6 counterexample: the claim says that on an 80×24 screen the middle
region rows [1..21) is split 50/50 horizontally between SearchResult and
SearchResultDetails. In fact the download layout first gives rows [1..4) of
the middle region to the SearchBar; SearchResult gets the left half of rows
[4..21) — rect (0, 4, 40, 17), not the left half of rows [1..21), which
would be (0, 1, 40, 20). -/
theorem c6_panels_not_at_row_one :
    (LayoutManager.init ⟨0, 0, 80, 24⟩).layout_store
        (Scenes.download .searchResult) = some ⟨0, 4, 40, 17⟩ ∧
    (⟨0, 4, 40, 17⟩ : Rect) ≠ ⟨0, 1, 40, 20⟩ := by
  exact ⟨rfl, by decide⟩

/-- C6 (amended): on an 80×24 screen the rebuild yields TitleBar = rows
[0..1), InputBar = rows [21..24), the Home intro scene = the whole middle
region rows [1..21), and within the download layout the SearchBar takes
rows [1..4) with the remaining rows [4..21) split 50/50 horizontally:
SearchResult on the left half, SearchResultDetails on the right half. -/
theorem c6_layout_80x24 :
    (LayoutManager.init ⟨0, 0, 80, 24⟩).layout_store Scenes.titleBar
        = some ⟨0, 0, 80, 1⟩ ∧
    (LayoutManager.init ⟨0, 0, 80, 24⟩).layout_store Scenes.inputBar
        = some ⟨0, 21, 80, 3⟩ ∧
    (LayoutManager.init ⟨0, 0, 80, 24⟩).layout_store (Scenes.home .intro)
        = some ⟨0, 1, 80, 20⟩ ∧
    (LayoutManager.init ⟨0, 0, 80, 24⟩).layout_store
        (Scenes.download .searchBar) = some ⟨0, 1, 80, 3⟩ ∧
    (LayoutManager.init ⟨0, 0, 80, 24⟩).layout_store
        (Scenes.download .searchResult) = some ⟨0, 4, 40, 17⟩ ∧
    (LayoutManager.init ⟨0, 0, 80, 24⟩).layout_store
        (Scenes.download .searchResultDetails) = some ⟨40, 4, 40, 17⟩ := by
  refine ⟨rfl, rfl, rfl, rfl, rfl, rfl⟩

/-- The key used for the two-key sequence scenario of C7. -/
def gKey : App.KeyEvent := 7

/-- A key-binding configuration whose Home table holds exactly the two-key
sequence [g, g] mapped to `Action::Help`, with no single-key [g] binding. -/
def c7Keybindings : App.Keybindings := fun m =>
  match m with
  | Mode.home => some [([gKey, gKey], Action.help)]
  | _ => none

/-- C7: with bindings mapping only the two-key sequence [g, g] to Help, a
first g emits nothing and buffers g; a second g with no intervening Tick
emits Help; a Tick processed between the presses clears the rolling buffer,
so a lone g afterwards again emits nothing. -/
theorem c7_gg_sequence_scenario :
    App.handleKeyBranch c7Keybindings ⟨Mode.home, Scenes.home .intro⟩ [] gKey
      = ([], [gKey]) ∧
    App.handleKeyBranch c7Keybindings ⟨Mode.home, Scenes.home .intro⟩
        [gKey] gKey = ([Action.help], [gKey, gKey]) ∧
    (App.handleAction
        { App.initialState with last_tick_key_events := [gKey] }
        Action.tick).map (fun s => s.last_tick_key_events) = some [] := by
  refine ⟨rfl, rfl, rfl⟩

/-- C8: from any InputArea state, update with InputModeOn carrying
input_name x and initial value abc, immediately followed by update with the
matching InputModeOff and no intervening edits, leaves the internal text
buffer equal to abc (InputModeOff is a no-op on the component state). -/
theorem c8_input_roundtrip (s : InputArea) :
    ((s.update (Action.inputModeOn ⟨"x", some "abc"⟩)).update
        (Action.inputModeOff ⟨some "x", "abc"⟩)).input_buffer = "abc" := by
  rfl

/-- C4 counterexample: the claim says that after every successful rebuild
the Scene→Rect map has an entry for the `scene()` of every registered
component, including `Scenes::Manager(ManagerLayouts::SongList)` reported by
SongList. `build_layouts` never inserts any `Manager` key, so after the
startup rebuild at 80×24 the SongList scene has no entry. -/
theorem c4_songList_scene_has_no_entry :
    songListMeta ∈ appComponents ∧
    (LayoutManager.init ⟨0, 0, 80, 24⟩).layout_store songListMeta.scene
      = none := by
  exact ⟨by decide, rfl⟩

/-- C4 (amended): every rebuild installs entries for the scenes of all
registered components except SongList — TitleBar, InputBar, Home/Intro and
the three Download scenes — while no rebuild ever touches the
`Manager(SongList)` key (so it stays absent from startup on), and
`get_component_layout` on that absent key returns an explicit error, not a
default rectangle. -/
theorem c4_rebuild_covers_all_scenes_except_songList (lm : LayoutManager)
    (screen : Rect) :
    (∀ c ∈ appComponents, c.scene ≠ Scenes.manager ManagerLayouts.songList →
      (((lm.update screen).layout_store c.scene).isSome = true)) ∧
    ((lm.update screen).layout_store (Scenes.manager ManagerLayouts.songList)
      = lm.layout_store (Scenes.manager ManagerLayouts.songList)) ∧
    ((LayoutManager.init screen).layout_store
        (Scenes.manager ManagerLayouts.songList) = none) ∧
    ((LayoutManager.init screen).get_component_layout
        (Scenes.manager ManagerLayouts.songList)
      = Except.error "Layout key does not exists") := by
  refine ⟨?_, rfl, rfl, rfl⟩
  intro c hc hne
  simp only [appComponents, List.mem_cons, List.not_mem_nil, or_false] at hc
  rcases hc with h | h | h | h | h | h | h
  · subst h; rfl
  · subst h; rfl
  · subst h; rfl
  · subst h; rfl
  · subst h; rfl
  · subst h; rfl
  · subst h; exact absurd rfl hne

/-- Characterization of one component's render step: it yields `drawn r`
exactly when the component's mode matches (or is Global) and the layout
manager resolves the scene to `r`. -/
theorem renderStep_eq_drawn_iff (lm : LayoutManager) (focus : Focus)
    (c : ComponentMeta) (r : Rect) :
    App.renderStep lm focus c = App.DrawOutcome.drawn r ↔
      (c.mode = focus.mode ∨ c.mode = Mode.global) ∧
      lm.get_component_layout c.scene = Except.ok r := by
  unfold App.renderStep
  split
  · rename_i hm
    cases hlay : lm.get_component_layout c.scene <;> simp [hlay, hm]
  · rename_i hm
    simp [hm]

/-- Characterization of one component's render step: it yields an `Error`
action exactly when the component's mode matches (or is Global) and layout
resolution fails. -/
theorem renderStep_eq_error_iff (lm : LayoutManager) (focus : Focus)
    (c : ComponentMeta) (e : String) :
    App.renderStep lm focus c = App.DrawOutcome.errorAction e ↔
      (c.mode = focus.mode ∨ c.mode = Mode.global) ∧
      ∃ msg, lm.get_component_layout c.scene = Except.error msg ∧
        e = "Failed to get layout: " ++ msg := by
  unfold App.renderStep
  split
  · rename_i hm
    cases hlay : lm.get_component_layout c.scene with
    | ok r => simp [hlay, hm]
    | error msg =>
        show App.DrawOutcome.errorAction ("Failed to get layout: " ++ msg)
            = App.DrawOutcome.errorAction e ↔ _
        constructor
        · intro h
          injection h with he
          exact ⟨hm, msg, rfl, he.symm⟩
        · rintro ⟨-, m2, hm2, he⟩
          injection hm2 with hmsg
          subst hmsg
          subst he
          rfl
  · rename_i hm
    simp [hm]

/-- C5 counterexample: the claim says that in EVERY draw pass triggered by
an action, a component is drawn only if its mode matches the current focus
or is Global, and only if the layout manager resolves its scene. The
`Action::Resize` arm (app.rs lines 176-188) refutes this: during a resize at
80×24 with Home focused, SongList — whose mode Manager is neither Home nor
Global, and whose scene the layout manager cannot resolve — is drawn at the
full frame like every other component. -/
theorem c5_resize_pass_draws_unfiltered :
    songListMeta ∈ appComponents ∧
    songListMeta.mode ≠ Mode.home ∧
    songListMeta.mode ≠ Mode.global ∧
    (LayoutManager.init ⟨0, 0, 80, 24⟩).get_component_layout
        songListMeta.scene = Except.error "Layout key does not exists" ∧
    (App.resizeDrawPass ⟨0, 0, 80, 24⟩ ⟨Mode.home, Scenes.home .intro⟩
        appComponents)[6]?
      = some (App.DrawOutcome.drawn ⟨0, 0, 80, 24⟩) := by
  refine ⟨by decide, by decide, by decide, rfl, rfl⟩

/-- C5 (amended): in a `Render`-triggered draw pass, every registered
component is processed (the pass has one outcome per component, the i-th
outcome depending only on the i-th component, so a layout failure for one
component never prevents the rest from drawing); a component is drawn only
when its mode equals the focused mode or Global AND the layout manager
resolves its scene, and a resolution failure for a mode-matching component
becomes an `Error` action carrying the resolution error. In a
`Resize`-triggered draw pass, by contrast, every component is drawn at the
full frame size, with no mode filter and no layout resolution. -/
theorem c5_render_pass_routing (lm : LayoutManager) (focus : Focus)
    (frame : Rect) (comps : List ComponentMeta) (i : Nat)
    (c : ComponentMeta) (hc : comps[i]? = some c) :
    (App.renderPass lm focus comps).length = comps.length ∧
    (App.renderPass lm focus comps)[i]? = some (App.renderStep lm focus c) ∧
    (∀ r, App.renderStep lm focus c = App.DrawOutcome.drawn r →
      (c.mode = focus.mode ∨ c.mode = Mode.global) ∧
      lm.get_component_layout c.scene = Except.ok r) ∧
    (∀ e, App.renderStep lm focus c = App.DrawOutcome.errorAction e →
      (c.mode = focus.mode ∨ c.mode = Mode.global) ∧
      ∃ msg, lm.get_component_layout c.scene = Except.error msg ∧
        e = "Failed to get layout: " ++ msg) ∧
    (App.resizeDrawPass frame focus comps).length = comps.length ∧
    (App.resizeDrawPass frame focus comps)[i]?
      = some (App.DrawOutcome.drawn frame) := by
  refine ⟨by simp [App.renderPass], ?_, ?_, ?_,
    by simp [App.resizeDrawPass], ?_⟩
  · simp [App.renderPass, List.getElem?_map, hc]
  · intro r h
    exact (renderStep_eq_drawn_iff lm focus c r).mp h
  · intro e h
    exact (renderStep_eq_error_iff lm focus c e).mp h
  · have hi : i < comps.length := by
      rcases List.getElem?_eq_some_iff.mp hc with ⟨hlen, -⟩
      exact hlen
    simp [App.resizeDrawPass, List.getElem?_replicate, hi]

/-- Witness for C5: the routing facts for both pass kinds at the startup
layout, Home focus, an 80×24 frame and component index 0 (the Intro
component). -/
theorem c5_render_pass_witness :
    (App.renderPass (LayoutManager.init ⟨0, 0, 80, 24⟩)
        ⟨Mode.home, Scenes.home .intro⟩ appComponents).length
      = appComponents.length ∧
    (App.renderPass (LayoutManager.init ⟨0, 0, 80, 24⟩)
        ⟨Mode.home, Scenes.home .intro⟩ appComponents)[0]?
      = some (App.renderStep (LayoutManager.init ⟨0, 0, 80, 24⟩)
          ⟨Mode.home, Scenes.home .intro⟩ introMeta) ∧
    (∀ r, App.renderStep (LayoutManager.init ⟨0, 0, 80, 24⟩)
        ⟨Mode.home, Scenes.home .intro⟩ introMeta
          = App.DrawOutcome.drawn r →
      (introMeta.mode = Mode.home ∨ introMeta.mode = Mode.global) ∧
      (LayoutManager.init ⟨0, 0, 80, 24⟩).get_component_layout
        introMeta.scene = Except.ok r) ∧
    (∀ e, App.renderStep (LayoutManager.init ⟨0, 0, 80, 24⟩)
        ⟨Mode.home, Scenes.home .intro⟩ introMeta
          = App.DrawOutcome.errorAction e →
      (introMeta.mode = Mode.home ∨ introMeta.mode = Mode.global) ∧
      ∃ msg, (LayoutManager.init ⟨0, 0, 80, 24⟩).get_component_layout
          introMeta.scene = Except.error msg ∧
        e = "Failed to get layout: " ++ msg) ∧
    (App.resizeDrawPass ⟨0, 0, 80, 24⟩ ⟨Mode.home, Scenes.home .intro⟩
        appComponents).length = appComponents.length ∧
    (App.resizeDrawPass ⟨0, 0, 80, 24⟩ ⟨Mode.home, Scenes.home .intro⟩
        appComponents)[0]?
      = some (App.DrawOutcome.drawn ⟨0, 0, 80, 24⟩) :=
  c5_render_pass_routing (LayoutManager.init ⟨0, 0, 80, 24⟩)
    ⟨Mode.home, Scenes.home .intro⟩ ⟨0, 0, 80, 24⟩ appComponents 0
    introMeta rfl

/-- Every id present in the artist table is bounded by the fold that
`freshArtistId` increments past. -/
theorem artistRow_id_le_fold (t : ArtistTable) (r : ArtistRow) (h : r ∈ t) :
    r.id ≤ t.foldr (fun q m => max q.id m) 0 := by
  induction t with
  | nil => cases h
  | cons a t ih =>
      rcases List.mem_cons.mp h with h | h
      · subst h; exact le_max_left _ _
      · exact le_trans (ih h) (le_max_right _ _)

/-- C9: calling `insert_artist` twice with the same name returns the same
id both times and the second call performs no insert (the table is
unchanged); calling it on a table with a name not present returns an id
that is not the id of any existing row. -/
theorem c9_insert_artist_upsert (t : ArtistTable) (nm : String)
    (t2 : ArtistTable) (nm2 : String) (h2 : ∀ r ∈ t2, r.name ≠ nm2) :
    ((insert_artist (insert_artist t nm).2 nm).1 = (insert_artist t nm).1 ∧
     (insert_artist (insert_artist t nm).2 nm).2 = (insert_artist t nm).2) ∧
    (∀ r ∈ t2, r.id ≠ (insert_artist t2 nm2).1) := by
  constructor
  · cases hf : t.find? (fun r => r.name = nm) with
    | some r => simp [insert_artist, hf]
    | none =>
        have hfind : ((t ++ [(⟨freshArtistId t, nm⟩ : ArtistRow)]).find?
            (fun r => decide (r.name = nm)))
              = some ⟨freshArtistId t, nm⟩ := by
          rw [List.find?_append, hf]
          simp
        simp [insert_artist, hf, hfind]
  · intro r hr
    have hf2 : t2.find? (fun r => decide (r.name = nm2)) = none := by
      rw [List.find?_eq_none]
      intro x hx
      simpa using h2 x hx
    have hle := artistRow_id_le_fold t2 r hr
    simp only [insert_artist, hf2, freshArtistId]
    omega

/-- Witness for C9: the upsert facts on concrete tables — inserting "a"
twice into the empty table, then "b" into the table holding only
(1, "a"). -/
theorem c9_insert_artist_witness :
    ((insert_artist (insert_artist [] "a").2 "a").1
        = (insert_artist [] "a").1 ∧
     (insert_artist (insert_artist [] "a").2 "a").2
        = (insert_artist [] "a").2) ∧
    (∀ r ∈ [(⟨1, "a"⟩ : ArtistRow)],
      r.id ≠ (insert_artist [(⟨1, "a"⟩ : ArtistRow)] "b").1) :=
  c9_insert_artist_upsert [] "a" [(⟨1, "a"⟩ : ArtistRow)] "b" (by decide)

/-- C10: in any orchestrator state with a current focus `f`, processing
`InputModeOn` pushes the focus (f.mode, InputBar) — the mode of the active
focus is unchanged by entering input mode — and the subsequent
`InputModeOff` pop restores exactly the pre-input state. -/
theorem c10_inputMode_push_pop_roundtrip (s : App.AppState) (f : Focus)
    (h : App.getFocused s = some f) (i : InputIn) (o : InputOut) :
    ∃ s2, App.handleAction s (Action.inputModeOn i) = some s2 ∧
      s2.focus_buffer = ⟨f.mode, Scenes.inputBar⟩ :: s.focus_buffer ∧
      App.getFocused s2 = some ⟨f.mode, Scenes.inputBar⟩ ∧
      App.handleAction s2 (Action.inputModeOff o) = some s := by
  refine ⟨{ s with focus_buffer :=
      ⟨f.mode, Scenes.inputBar⟩ :: s.focus_buffer }, ?_, rfl, rfl, rfl⟩
  simp [App.handleAction, h]

/-- Witness for C10: entering and leaving input mode from the startup state
restores it exactly; the pushed focus keeps the Home mode. -/
theorem c10_inputMode_witness :
    ∃ s2, App.handleAction App.initialState
        (Action.inputModeOn ⟨"x", none⟩) = some s2 ∧
      s2.focus_buffer = ⟨Mode.home, Scenes.inputBar⟩ ::
        App.initialState.focus_buffer ∧
      App.getFocused s2 = some ⟨Mode.home, Scenes.inputBar⟩ ∧
      App.handleAction s2 (Action.inputModeOff ⟨none, ""⟩)
        = some App.initialState :=
  c10_inputMode_push_pop_roundtrip App.initialState
    ⟨Mode.home, Scenes.home .intro⟩ rfl ⟨"x", none⟩ ⟨none, ""⟩

end Muzik
